import Mathlib

set_option allowUnsafeReducibility true
attribute [semireducible] Rat.add Rat.sub Rat.mul Rat.inv Rat.ofScientific

/-!
Verification development for the findingmove venue-discovery application.

The Lean definitions below are a shallow embedding of the Python sources:
  - utils/data_manager.py   (venue store: loading, search, filtering)
  - utils/recommendation_engine.py (preference-weighted scoring, diversity,
    and the alternative recommendation strategies)
  - utils/map_utils.py      (haversine distance, nearest venue, clustering)
  - utils/weather_manager.py (wind-direction bucketing)

Modelling conventions:
  - Python floats are modelled by exact rationals (ℚ) in the data-manager and
    recommendation-engine code, whose arithmetic is +,-,*,/ on decimal
    literals, and by ℝ in map_utils, whose haversine formula uses sin/cos/
    arcsin/sqrt.
  - pandas DataFrames are modelled as Lists of a record type; a column that
    can hold NaN is modelled as an Option field.
  - Randomness (random.randint, np.random.uniform/beta/choice, KMeans and
    TF-IDF library output) is modelled by explicit oracle parameters; a
    theorem that depends on the range of a draw takes that range as a
    hypothesis.
  - A Python `try/except` body is modelled by an explicit `raises : Bool`
    parameter: `raises = true` means some statement inside the `try` block
    raised, and the function returns whatever its `except` handler returns.
-/

/-- One venue row, as built by `load_venues_data` in utils/data_manager.py.
Columns that the loader always fills with a string are plain `String`;
`price_per_hour`, `latitude` and `longitude` are `Option` because generic
DataFrames passed to map_utils may hold NaN in them. -/
structure Venue where
  id : Nat
  name : String
  district : String
  address : String
  sport_type : String
  price_per_hour : Option ℚ
  rating : ℚ
  facilities : String
  description : String
  contact_phone : String
  opening_hours : String
  website : String
  venue_scale : String
  courses : String
  photos : String
  latitude : Option ℚ
  longitude : Option ℚ
deriving DecidableEq

/-- A raw CSV row (13 columns, after header renaming) before normalization
by `load_venues_data`; every cell can be NaN. -/
structure RawRow where
  name : Option String
  district : Option String
  price_range : Option String
  sport_type : Option String
  opening_hours : Option String
  facilities : Option String
  venue_scale : Option String
  courses : Option String
  other : Option String
  website : Option String
  address : Option String
  contact_phone : Option String
  photos : Option String
deriving DecidableEq

/-- User preferences dictionary: `preferred_sports`, `preferred_districts`
and (optionally present) `price_range`; `Option` models the key being absent
from the dict, in which case the engine substitutes the default [0, 10000]. -/
structure Prefs where
  preferred_sports : List String
  preferred_districts : List String
  price_range : Option (ℚ × ℚ)
deriving DecidableEq

/-- The `user_preferences.get('price_range', [0, 10000])` read used by the
recommendation engine. -/
def pref_price_range (p : Prefs) : ℚ × ℚ :=
  p.price_range.getD (0, 10000)

/-- Python `str.lower()`: character-wise lowering (the stored data is
Chinese/ASCII text, on which per-char ASCII lowering agrees with Python's
Unicode lowering).  Defined structurally so that concrete instances
kernel-evaluate. -/
def pyLower (s : String) : String := ⟨s.data.map Char.toLower⟩

/-- Python `str.strip()`: drop whitespace from both ends. -/
def pyStrip (s : String) : String :=
  ⟨((s.data.dropWhile Char.isWhitespace).reverse.dropWhile Char.isWhitespace).reverse⟩

/-- Python builtin `min` on two numbers, defined by cases so that concrete
instances kernel-evaluate (equal to Mathlib's `min`, see `pyMin_eq_min`). -/
def pyMin (a b : ℚ) : ℚ := if a ≤ b then a else b

/-- Python builtin `max` on two numbers (equal to Mathlib's `max`). -/
def pyMax (a b : ℚ) : ℚ := if a ≤ b then b else a

/-- Plain substring test, the semantics of Python `pat in s`. -/
def strContains (s pat : String) : Bool :=
  decide (pat.data <:+: s.data)

/-- Case-insensitive containment, the semantics of a pandas
`.str.lower().str.contains(pat)` / `.str.contains(pat, case=False)` check for
a plain-text pattern (pandas treats the pattern as a regex; for patterns
without regex metacharacters, as produced by UI facility and search inputs,
this is literal substring matching). Python str.lower() also lowers
non-ASCII cased letters; the searched data is Chinese/ASCII, where the two
agree. -/
def lowerContains (s pat : String) : Bool :=
  strContains (pyLower s) (pyLower pat)

/- ### utils/weather_manager.py : wind-direction bucketing -/

/-- The fixed 16-label compass table of `_convert_wind_direction`. -/
def wind_directions : List String :=
  ["北風", "北北東風", "東北風", "東北東風",
   "東風", "東南東風", "東南風", "南南東風",
   "南風", "南南西風", "西南風", "西南西風",
   "西風", "西北西風", "西北風", "北北西風"]

/-- Python `int(x)` on a float: truncation toward zero. -/
def pyInt (q : ℚ) : ℤ :=
  if 0 ≤ q then ⌊q⌋ else ⌈q⌉

/-- `_convert_wind_direction` in utils/weather_manager.py, on the numeric
path (the input string parsed to a number):
`index = int((degrees + 11.25) / 22.5) % 16; return directions[index]`.
Python `%` with positive modulus is Euclidean remainder, i.e. `Int.emod`. -/
def _convert_wind_direction (degrees : ℚ) : String :=
  wind_directions.getD ((pyInt ((degrees + 11.25) / 22.5)) % 16).toNat ""

/-- The index formula exactly as the spec words it:
`floor((deg+11.25)/22.5) mod 16` (mathematical floor, not truncation).
Stated for comparison with the implementation. -/
def wind_label_spec (degrees : ℚ) : String :=
  wind_directions.getD (((⌊(degrees + 11.25) / 22.5⌋ : ℤ) % 16).toNat) ""

/- ### utils/data_manager.py : loading and normalization -/

/-- The sport-type normalization table of `_normalize_sport_type_static`,
in Python dict insertion order. -/
def sport_mapping : List (String × String) :=
  [("羽球", "羽毛球"), ("羽毛球", "羽毛球"), ("游泳", "游泳"),
   ("健身", "健身"), ("重訓", "健身"), ("有氧", "有氧運動"),
   ("瑜珈", "瑜伽"), ("瑜伽", "瑜伽"), ("球類", "球類運動"),
   ("籃球", "籃球"), ("足球", "足球"), ("網球", "網球"),
   ("桌球", "桌球"), ("撞球", "撞球"), ("排球", "排球"),
   ("戶外運動", "戶外運動")]

/-- `DataManager._normalize_sport_type_static`. -/
def _normalize_sport_type_static (sport_type : Option String) : String :=
  match sport_type with
  | none => "綜合運動"
  | some s =>
    if s == "" then "綜合運動"
    else
      let st := pyStrip s
      match sport_mapping.find? (fun kv => strContains st kv.1) with
      | some kv => kv.2
      | none => if st == "" then "綜合運動" else st

/-- `DataManager._extract_price_static`.  `r1` is the oracle for
`random.randint(100, 500)` (missing price cell) and `r2` the oracle for
`random.randint(200, 400)` (unrecognized bucket); both are inclusive
ranges. -/
def _extract_price_static (price_range : Option String) (r1 r2 : ℕ) : ℕ :=
  match price_range with
  | none => r1
  | some s =>
    if s == "" then r1
    else
      let price_str := pyStrip s
      if strContains price_str "0-200" then 150
      else if strContains price_str "200-500" then 350
      else if strContains price_str "500以上" then 700
      else r2

/-- The facility normalization table of `_normalize_facilities_static`,
in Python dict insertion order. -/
def facility_mapping : List (String × String) :=
  [("淋浴間", "淋浴間"), ("置物櫃", "置物櫃"), ("停車場", "停車場"),
   ("Wi-Fi", "Wi-Fi"), ("WiFi", "Wi-Fi"), ("無障礙設施", "無障礙設施"),
   ("性別友善設施", "性別友善設施"), ("寵物友善", "寵物友善"),
   ("女性專用", "女性專用")]

/-- `DataManager._normalize_facilities_static`. -/
def _normalize_facilities_static (facilities : Option String) : String :=
  match facilities with
  | none => "基本設施"
  | some s =>
    if s == "" then "基本設施"
    else
      let fs := pyStrip s
      let normalized := (facility_mapping.filter (fun kv => strContains fs kv.1)).map Prod.snd
      if normalized.isEmpty then fs else String.intercalate "/" normalized

/-- The fixed district-centroid table of
`DataManager._get_district_coordinates_static`. -/
def district_coords : List (String × (ℚ × ℚ)) :=
  [("士林區", (25.0881, 121.5256)), ("大安區", (25.0266, 121.5484)),
   ("中山區", (25.0633, 121.5267)), ("大同區", (25.0633, 121.5154)),
   ("中正區", (25.0364, 121.5161)), ("信義區", (25.0336, 121.5751)),
   ("萬華區", (25.0327, 121.5060)), ("文山區", (24.9906, 121.5420)),
   ("松山區", (25.0501, 121.5776)), ("內湖區", (25.0838, 121.5948)),
   ("南港區", (25.0415, 121.6073)), ("北投區", (25.1372, 121.5018))]

/-- `DataManager._get_district_coordinates_static`: trimmed lookup with the
city-center default (a NaN district stringifies to a key that is not in the
table, hence also the default). -/
def _get_district_coordinates_static (district : Option String) : ℚ × ℚ :=
  match district with
  | none => (25.0478, 121.5319)
  | some s =>
    ((district_coords.find? (fun kv => kv.1 == pyStrip s)).map Prod.snd).getD
      (25.0478, 121.5319)

/-- One iteration of the row loop in `load_venues_data`
(utils/data_manager.py): builds the normalized venue record from a raw CSV
row.  `idx` is the pandas row index (`'id': idx + 1`); `priceR1`/`priceR2`
are the `random.randint` oracles of `_extract_price_static`, and `rating`
is the oracle for `round(random.uniform(3.5, 5.0), 1)`. -/
def load_venue (idx : ℕ) (row : RawRow) (priceR1 priceR2 : ℕ) (rating : ℚ) : Venue :=
  { id := idx + 1
    name := (row.name.map pyStrip).getD ""
    district := (row.district.map pyStrip).getD ""
    address := (row.address.map pyStrip).getD ""
    sport_type := _normalize_sport_type_static row.sport_type
    price_per_hour := some (_extract_price_static row.price_range priceR1 priceR2 : ℚ)
    rating := rating
    facilities := _normalize_facilities_static row.facilities
    description := (row.other.map pyStrip).getD ""
    contact_phone := (row.contact_phone.map pyStrip).getD ""
    opening_hours := (row.opening_hours.map pyStrip).getD ""
    website := (row.website.map pyStrip).getD ""
    venue_scale := (row.venue_scale.map pyStrip).getD ""
    courses := (row.courses.map pyStrip).getD ""
    photos := (row.photos.map pyStrip).getD ""
    latitude := some (_get_district_coordinates_static row.district).1
    longitude := some (_get_district_coordinates_static row.district).2 }

/- ### utils/data_manager.py : search and filtering -/

/-- The per-row search mask of `DataManager.search_venues`: the OR over the
six searched columns of a lowered containment test.  `q` is expected
already lowercased and stripped (the caller does `query.lower().strip()`). -/
def row_matches (v : Venue) (q : String) : Bool :=
  strContains (pyLower v.name) q || strContains (pyLower v.address) q ||
  strContains (pyLower v.district) q || strContains (pyLower v.sport_type) q ||
  strContains (pyLower v.facilities) q || strContains (pyLower v.description) q

/-- `DataManager.search_venues`: `None` on empty store or empty query;
otherwise the rows whose mask is set, or `None` when none is. -/
def search_venues (venues : List Venue) (query : String) : Option (List Venue) :=
  if venues.isEmpty || query == "" then none
  else
    let q := pyStrip (pyLower query)
    let results := venues.filter (fun v => row_matches v q)
    if results.isEmpty then none else some results

/-- `DataManager.get_filtered_venues`.  Python argument truthiness: a `None`
or `[]` list argument skips its filter, so both are modelled by `[]`; an
absent `search_query` is the empty string; `price_range` is `Option` because
any two-element list (even `[0,0]`) is truthy. -/
def get_filtered_venues (venues : List Venue) (sport_types : List String)
    (districts : List String) (price_range : Option (ℚ × ℚ))
    (facilities : List String) (min_rating : ℚ) (search_query : String) :
    Option (List Venue) :=
  if venues.isEmpty then none
  else
    let afterSearch : Option (List Venue) :=
      if search_query == "" then some venues
      else match search_venues venues search_query with
        | some r => some r
        | none => none
    match afterSearch with
    | none => none
    | some d0 =>
      let d1 := if sport_types.isEmpty then d0
                else d0.filter (fun v => sport_types.contains v.sport_type)
      let d2 := if districts.isEmpty then d1
                else d1.filter (fun v => districts.contains v.district)
      let d3 := match price_range with
        | none => d2
        | some pr =>
          d2.filter (fun v => match v.price_per_hour with
            | some p => decide (pr.1 ≤ p) && decide (p ≤ pr.2)
            | none => false)
      let d4 := facilities.foldl
        (fun acc f => acc.filter (fun v => lowerContains v.facilities f)) d3
      let d5 := if min_rating > 0 then d4.filter (fun v => decide (min_rating ≤ v.rating))
                else d4
      if d5.isEmpty then none else some d5

/- ### utils/recommendation_engine.py : preference-weighted scoring -/

/-- The weight configuration held in `RecommendationEngine.self.weights`. -/
structure EngineWeights where
  preference_weight : ℚ
  rating_weight : ℚ
  price_weight : ℚ
  distance_weight : ℚ
  facility_weight : ℚ
  explore_vs_exploit : ℚ
  popularity_bias : ℚ
  novelty_preference : ℚ
  serendipity_factor : ℚ
deriving DecidableEq

/-- The defaults assigned in `RecommendationEngine.__init__` (and restored by
`reset_weights`). -/
def default_weights : EngineWeights :=
  ⟨0.3, 0.25, 0.2, 0.15, 0.1, 0.3, 0.4, 0.2, 0.15⟩

/-- `sport_match` column of `_calculate_preference_match`: 1.0 / 0.5 against
the preferred-sports list, 0.7 uniform when no sport preference is given
(our venue model always has the `sport_type` column, matching the loader's
output). -/
def sport_match (prefs : Prefs) (v : Venue) : ℚ :=
  if prefs.preferred_sports.isEmpty then 0.7
  else if prefs.preferred_sports.contains v.sport_type then 1 else 0.5

/-- `district_match` column of `_calculate_preference_match`: 1.0 / 0.3,
default 0.7. -/
def district_match (prefs : Prefs) (v : Venue) : ℚ :=
  if prefs.preferred_districts.isEmpty then 0.7
  else if prefs.preferred_districts.contains v.district then 1 else 0.3

/-- `preference_match = (sport_match + district_match) / 2`. -/
def preference_match (prefs : Prefs) (v : Venue) : ℚ :=
  (sport_match prefs v + district_match prefs v) / 2

/-- The column maximum `venues_data['rating'].max()` as used by the rating
branches.  The 0 seed only matters when every rating is negative, where both
this fold and the pandas maximum fail the `max_rating > 0` test and select
the same default branch. -/
def max_rating (venues : List Venue) : ℚ :=
  (venues.map Venue.rating).foldl pyMax 0

/-- `_calculate_rating_weight`: rating normalized by the column maximum,
0.5 default when the maximum is not positive. -/
def rating_weight (venues : List Venue) (v : Venue) : ℚ :=
  let m := max_rating venues
  if m > 0 then v.rating / m else 0.5

/-- `_calculate_price_match`: 1.0 when the price is missing or inside the
preferred range, otherwise a linear decay from the range midpoint floored
at 0.  (When `max_price = 0` and the decay branch is reached, Python raises
ZeroDivisionError, which the strategy wrappers catch; ℚ division by zero is
total, so theorems about this branch assume `0 < max_price`.) -/
def price_match (prefs : Prefs) (v : Venue) : ℚ :=
  let pr := pref_price_range prefs
  match v.price_per_hour with
  | none => 1
  | some x =>
    if pr.1 ≤ x ∧ x ≤ pr.2 then 1
    else pyMax 0 (1 - |x - (pr.1 + pr.2) / 2| / pr.2)

/-- `_calculate_distance_score`: 1.0 / 0.4 against the preferred districts,
default 0.7. -/
def distance_score (prefs : Prefs) (v : Venue) : ℚ :=
  if prefs.preferred_districts.isEmpty then 0.7
  else if prefs.preferred_districts.contains v.district then 1 else 0.4

/-- `_calculate_facility_match`: the placeholder constant 0.7. -/
def facility_match (_prefs : Prefs) (_v : Venue) : ℚ := 0.7

/-- The weighted combination at the end of
`_calculate_recommendation_scores`:
`(preference*w1 + rating*w2 + price*w3 + distance*w4 + facility*w5) * 10`. -/
def combine_score (w : EngineWeights) (pm rw prm ds fm : ℚ) : ℚ :=
  (pm * w.preference_weight + rw * w.rating_weight + prm * w.price_weight +
   ds * w.distance_weight + fm * w.facility_weight) * 10

/-- A venue row after `_calculate_recommendation_scores` added its component
columns and the composite `recommendation_score`. -/
structure ScoredVenue where
  venue : Venue
  sport_match : ℚ
  district_match : ℚ
  preference_match : ℚ
  rating_weight : ℚ
  price_match : ℚ
  distance_score : ℚ
  facility_match : ℚ
  recommendation_score : ℚ
deriving DecidableEq

/-- `RecommendationEngine._calculate_recommendation_scores`: computes every
component column and the composite score for each row of the table. -/
def _calculate_recommendation_scores (w : EngineWeights) (venues_data : List Venue)
    (prefs : Prefs) : List ScoredVenue :=
  venues_data.map (fun v =>
    let sm := sport_match prefs v
    let dm := district_match prefs v
    let pm := preference_match prefs v
    let rw := rating_weight venues_data v
    let prm := price_match prefs v
    let ds := distance_score prefs v
    let fm := facility_match prefs v
    ⟨v, sm, dm, pm, rw, prm, ds, fm, combine_score w pm rw prm ds fm⟩)

/-- `RecommendationEngine._apply_diversity`: per sport_type group of size
`group_size`, subtract `min(diversity_weight * (group_size - 1) * 0.1, 2.0)`
from every member's score.  pandas groupby/concat also reorders the rows by
sport_type; row order is irrelevant to every property stated below, so the
embedding keeps input order and adjusts scores in place. -/
def _apply_diversity (venues_data : List ScoredVenue) (diversity_weight : ℚ) :
    List ScoredVenue :=
  venues_data.map (fun r =>
    let group_size := (venues_data.filter
      (fun s => s.venue.sport_type == r.venue.sport_type)).length
    let diversity_penalty := pyMin (diversity_weight * ((group_size : ℚ) - 1) * 0.1) 2
    { r with recommendation_score := r.recommendation_score - diversity_penalty })

/- ### utils/recommendation_engine.py : strategy pipelines -/

/-- A row of a strategy result: the venue with its `recommendation_score`
and `recommendation_reason` columns (the columns common to every strategy
DataFrame; the preference-weighted sub-score columns are exposed by
`_calculate_recommendation_scores` above). -/
structure RecRow where
  venue : Venue
  recommendation_score : ℚ
  recommendation_reason : String
deriving DecidableEq

/-- Stable descending insertion used to model pandas
`nlargest(n, col)` (keep='first'): sort descending, ties keep original
order, take the first n. -/
def insertDesc {α : Type} (key : α → ℚ) (x : α) : List α → List α
  | [] => [x]
  | y :: ys => if key y < key x then x :: y :: ys else y :: insertDesc key x ys

/-- Stable descending sort by a rational key (models both
`nlargest` and `sort_values(col, ascending=False)`; pandas' default
quicksort is unstable on ties, this embedding fixes the stable order). -/
def sortDesc {α : Type} (key : α → ℚ) (l : List α) : List α :=
  l.foldr (insertDesc key) []

/-- pandas `df.nlargest(n, col)`. -/
def nlargest {α : Type} (n : ℕ) (key : α → ℚ) (l : List α) : List α :=
  (sortDesc key l).take n

/-- The reason generator of `_add_recommendation_reasons`.  The f-string
`f"{rating:.1f}"` one-decimal rendering is modelled by `toString`; the
rendered text is never inspected by any property. -/
def generate_reason (prefs : Prefs) (r : ScoredVenue) : String :=
  let reasons :=
    (if r.preference_match > 0.8 then
      (if prefs.preferred_sports.contains r.venue.sport_type then
        ["符合您偏好的" ++ r.venue.sport_type] else []) ++
      (if prefs.preferred_districts.contains r.venue.district then
        ["位於您偏好的" ++ r.venue.district] else [])
     else []) ++
    (if r.rating_weight > 0.8 then
      ["高評分場地(" ++ toString r.venue.rating ++ "/5.0)"] else []) ++
    (if r.price_match > 0.8 then ["價格符合您的預算"] else [])
  if reasons.isEmpty then "綜合評估推薦" else String.intercalate " • " reasons

/-- `RecommendationEngine.get_personalized_recommendations`.
`venues` is the `DataManager.get_all_venues()` result (`none` models a
`None` store); `raises = true` models an exception inside the `try` body,
answered by the handler's `return None`. -/
def get_personalized_recommendations (w : EngineWeights) (venues : Option (List Venue))
    (prefs : Prefs) (n : ℕ) (diversity_weight : ℚ) (raises : Bool) :
    Option (List RecRow) :=
  if raises then none
  else match venues with
  | none => none
  | some vd =>
    if vd.isEmpty then none
    else
      let scored := _calculate_recommendation_scores w vd prefs
      if scored.isEmpty then none
      else
        let scored2 := if diversity_weight > 0 then _apply_diversity scored diversity_weight
                       else scored
        let top := nlargest n ScoredVenue.recommendation_score scored2
        some (top.map (fun r => ⟨r.venue, r.recommendation_score, generate_reason prefs r⟩))

/-- `RecommendationEngine.get_trending_venues`.  `pops` is the oracle for
`np.random.beta(2, 5, len)` (one draw per row); excess oracle entries are
ignored and the oracle is assumed at least as long as the table. -/
def get_trending_venues (venues : Option (List Venue)) (n : ℕ) (pops : List ℚ)
    (raises : Bool) : Option (List RecRow) :=
  if raises then none
  else match venues with
  | none => none
  | some vd =>
    if vd.isEmpty then none
    else
      let m := max_rating vd
      let rows := (vd.zip pops).map (fun p =>
        let rating_score := if m > 0 then p.1.rating / m else 0
        (p.1, rating_score * 0.6 + p.2 * 0.4))
      let top := nlargest n Prod.snd rows
      some (top.map (fun p => ⟨p.1, p.2 * 10, "熱門場地 - 高評分且受歡迎"⟩))

/-- `RecommendationEngine.get_new_venues`.  `idxs` is the oracle for the
`np.random.choice` index sample and `draws` for
`np.random.uniform(6.0, 9.0, len)`. -/
def get_new_venues (venues : Option (List Venue)) (n : ℕ) (idxs : List ℕ)
    (draws : List ℚ) (raises : Bool) : Option (List RecRow) :=
  if raises then none
  else match venues with
  | none => none
  | some vd =>
    if vd.isEmpty then none
    else
      let chosen := (idxs.filterMap (fun i => vd.get? i)).zip draws
      let rows : List RecRow :=
        chosen.map (fun p => ⟨p.1, p.2, "新開放場地 - 值得探索"⟩)
      some (nlargest n RecRow.recommendation_score rows)

/-- The candidate extra sports of `_generate_similar_user_preferences`. -/
def additional_sports : List String := ["籃球", "足球", "網球", "羽毛球", "游泳"]

/-- The candidate extra districts of `_generate_similar_user_preferences`. -/
def additional_districts : List String := ["中正區", "大安區", "信義區", "中山區"]

/-- The inner candidate loop of `_generate_similar_user_preferences`: walk
the candidate list, and for each candidate not already present consume one
coin (`random.random() < p`; short-circuit evaluation consumes no coin for
members) and append on heads.  An exhausted coin stream acts as tails. -/
def addExtras (base : List String) (cands : List String) (coins : List Bool) :
    List String × List Bool :=
  cands.foldl (fun acc cand =>
    if acc.1.contains cand then acc
    else match acc.2 with
      | [] => (acc.1, [])
      | c :: rest => (if c then acc.1 ++ [cand] else acc.1, rest)) (base, coins)

/-- One simulated similar user of `_generate_similar_user_preferences`: the
base preference lists, possibly extended (only when the base list is
nonempty).  The generated dict has no `price_range` key. -/
def gen_similar_one (prefs : Prefs) (coins : List Bool) : Prefs × List Bool :=
  let s := if prefs.preferred_sports.isEmpty then (prefs.preferred_sports, coins)
           else addExtras prefs.preferred_sports additional_sports coins
  let d := if prefs.preferred_districts.isEmpty then (prefs.preferred_districts, s.2)
           else addExtras prefs.preferred_districts additional_districts s.2
  (⟨s.1, d.1, none⟩, d.2)

/-- The five-user loop of `_generate_similar_user_preferences`, threading
the coin stream. -/
def gen_similar_go (prefs : Prefs) : ℕ → List Bool → List Prefs
  | 0, _ => []
  | k + 1, coins =>
    let u := gen_similar_one prefs coins
    u.1 :: gen_similar_go prefs k u.2

/-- `RecommendationEngine._generate_similar_user_preferences`: five
simulated users derived from the current preferences. -/
def _generate_similar_user_preferences (prefs : Prefs) (coins : List Bool) :
    List Prefs :=
  gen_similar_go prefs 5 coins

/-- `RecommendationEngine._calculate_collaborative_score`: average, over
the simulated users with a positive per-user score, of
(3 sport match + 2 district match + rating/2 when the rating is truthy);
5.0 when no user matches. -/
def _calculate_collaborative_score (venue : Venue) (sim : List Prefs) : ℚ :=
  let scores := sim.map (fun u =>
    (if u.preferred_sports.contains venue.sport_type then (3 : ℚ) else 0) +
    (if u.preferred_districts.contains venue.district then (2 : ℚ) else 0) +
    (if venue.rating ≠ 0 then venue.rating * 0.5 else 0))
  let matching := scores.filter (fun s => decide (0 < s))
  if matching.isEmpty then 5 else matching.sum / (matching.length : ℚ)

/-- `RecommendationEngine.get_collaborative_recommendations`. -/
def get_collaborative_recommendations (venues : Option (List Venue)) (prefs : Prefs)
    (n : ℕ) (coins : List Bool) (raises : Bool) : Option (List RecRow) :=
  if raises then none
  else match venues with
  | none => none
  | some vd =>
    if vd.isEmpty then none
    else
      let sim := _generate_similar_user_preferences prefs coins
      let rows : List RecRow := vd.map (fun v =>
        ⟨v, _calculate_collaborative_score v sim,
         "相似用戶推薦 - 與您喜好相似的用戶也喜歡這些場地"⟩)
      let rows2 := rows.filter (fun r => decide ((5 : ℚ) ≤ r.recommendation_score))
      if rows2.isEmpty then none
      else some (nlargest n RecRow.recommendation_score rows2)

/-- `RecommendationEngine._filter_by_preferences`.  The price filter always
runs (the `[0, 10000]` default is truthy) and keeps missing prices. -/
def _filter_by_preferences (venues : List Venue) (prefs : Prefs) : List Venue :=
  let f1 := if prefs.preferred_sports.isEmpty then venues
            else venues.filter (fun v => prefs.preferred_sports.contains v.sport_type)
  let f2 := if prefs.preferred_districts.isEmpty then f1
            else f1.filter (fun v => prefs.preferred_districts.contains v.district)
  let pr := pref_price_range prefs
  f2.filter (fun v => match v.price_per_hour with
    | none => true
    | some p => decide (pr.1 ≤ p) && decide (p ≤ pr.2))

/-- `RecommendationEngine.get_rating_based_recommendations`.  `draws` is the
oracle for `np.random.uniform(0, 2, len)`.  Loader ratings are never NaN,
so the `notna()` conjunct of the rated filter is identically true in the
model. -/
def get_rating_based_recommendations (venues : Option (List Venue)) (prefs : Prefs)
    (n : ℕ) (draws : List ℚ) (raises : Bool) : Option (List RecRow) :=
  if raises then none
  else match venues with
  | none => none
  | some vd =>
    if vd.isEmpty then none
    else
      let rated := vd.filter (fun v => decide (0 < v.rating))
      if rated.isEmpty then none
      else
        let filtered := _filter_by_preferences rated prefs
        let filtered2 := if filtered.isEmpty then rated else filtered
        let sorted := sortDesc Venue.rating filtered2
        let rows : List RecRow := (sorted.zip draws).map (fun p =>
          ⟨p.1, p.1.rating / 5 * 8 + p.2,
           "高評分場地 - 平均評分 " ++ toString p.1.rating ++ "/5.0"⟩)
        some (rows.take n)

/-- `RecommendationEngine._adjust_ml_scores`: sport bonus 2.0 and district
bonus 1.5 for preferred matches (each only when the preference list is
nonempty). -/
def _adjust_ml_scores (rows : List RecRow) (prefs : Prefs) : List RecRow :=
  rows.map (fun r =>
    { r with recommendation_score := r.recommendation_score +
        (if !prefs.preferred_sports.isEmpty &&
            prefs.preferred_sports.contains r.venue.sport_type then 2 else 0) +
        (if !prefs.preferred_districts.isEmpty &&
            prefs.preferred_districts.contains r.venue.district then 1.5 else 0) })

/-- `RecommendationEngine.get_ml_based_recommendations`.
`featuresOk` models `_prepare_ml_features` succeeding (it returns `None`
exactly when its own `try` body raises, and is empty only for an empty
table); `modelOk` models `self.ml_model and user_features is not None`;
`draws` is the oracle for `np.random.uniform(5.0, 10.0, len)` — the
RandomForest prediction is computed by the source but never used for
ranking.  Fallbacks call the preference-weighted strategy with its default
`diversity_weight = 0.3`; `pRaises` is that call's own raises flag. -/
def get_ml_based_recommendations (w : EngineWeights) (venues : Option (List Venue))
    (prefs : Prefs) (n : ℕ) (featuresOk modelOk : Bool) (draws : List ℚ)
    (raises pRaises : Bool) : Option (List RecRow) :=
  if raises then get_personalized_recommendations w venues prefs n 0.3 pRaises
  else match venues with
  | none => none
  | some vd =>
    if vd.isEmpty then none
    else if !featuresOk then get_personalized_recommendations w venues prefs n 0.3 pRaises
    else if !modelOk then get_personalized_recommendations w venues prefs n 0.3 pRaises
    else
      let rows : List RecRow := (vd.zip draws).map (fun p =>
        ⟨p.1, p.2, "機器學習模型推薦 - 基於數據模式分析"⟩)
      let rows2 := _adjust_ml_scores rows prefs
      some (nlargest n RecRow.recommendation_score rows2)

/-- `RecommendationEngine._find_user_cluster` over venue rows tagged with
their KMeans cluster label: per cluster (in first-occurrence order, the
dict insertion order of the source), score = sport-overlap·3 +
district-overlap·2 + mean-rating·0.5; `max(…, key=…)` returns the first
maximal entry. -/
def _find_user_cluster (prefs : Prefs) (cluster_venues : List (Venue × ℕ)) :
    Option ℕ :=
  let ids := (cluster_venues.map Prod.snd).eraseDups
  let scores := ids.map (fun cid =>
    let cd := cluster_venues.filter (fun p => p.2 == cid)
    let len : ℚ := (cd.length : ℚ)
    let s1 := if !prefs.preferred_sports.isEmpty then
        ((cd.filter (fun p => prefs.preferred_sports.contains p.1.sport_type)).length : ℚ)
          / len * 3 else 0
    let s2 := if !prefs.preferred_districts.isEmpty then
        ((cd.filter (fun p => prefs.preferred_districts.contains p.1.district)).length : ℚ)
          / len * 2 else 0
    let avg := (cd.map (fun p => p.1.rating)).sum / len
    (cid, s1 + s2 + avg * 0.5))
  (scores.foldl (fun best p => match best with
    | none => some p
    | some b => if p.2 > b.2 then some p else some b) none).map Prod.fst

/-- `RecommendationEngine.get_cluster_based_recommendations`.
`featuresOk` models `_prepare_cluster_features` succeeding; the source also
falls back when `len(cluster_features) < 3` (one feature row per venue);
`labels` is the KMeans label oracle (one label per row) and `draws` the
oracle for `np.random.uniform(6.0, 9.5, len)`. -/
def get_cluster_based_recommendations (w : EngineWeights) (venues : Option (List Venue))
    (prefs : Prefs) (n : ℕ) (featuresOk : Bool) (labels : List ℕ) (draws : List ℚ)
    (raises pRaises : Bool) : Option (List RecRow) :=
  if raises then get_personalized_recommendations w venues prefs n 0.3 pRaises
  else match venues with
  | none => none
  | some vd =>
    if vd.isEmpty then none
    else if !featuresOk || vd.length < 3 then
      get_personalized_recommendations w venues prefs n 0.3 pRaises
    else
      let cluster_venues := vd.zip labels
      match _find_user_cluster prefs cluster_venues with
      | none => get_personalized_recommendations w venues prefs n 0.3 pRaises
      | some cid =>
        let members := cluster_venues.filter (fun p => p.2 == cid)
        if members.isEmpty then get_personalized_recommendations w venues prefs n 0.3 pRaises
        else
          let rows : List RecRow := (members.zip draws).map (fun p =>
            ⟨p.1.1, p.2 + p.1.1.rating * 0.5, "聚類分析推薦 - 與您偏好相似的場地群組"⟩)
          some (nlargest n RecRow.recommendation_score rows)

/-- `RecommendationEngine._prepare_content_features`: the concatenated
name/sport/district/description text per venue (in the model these columns
are non-null strings, so all four parts are always joined). -/
def _prepare_content_features (vd : List Venue) : List String :=
  vd.map (fun v => String.intercalate " " [v.name, v.sport_type, v.district, v.description])

/-- `RecommendationEngine._generate_user_query`. -/
def _generate_user_query (prefs : Prefs) : String :=
  let qp := prefs.preferred_sports ++ prefs.preferred_districts
  if qp.isEmpty then "運動場地" else String.intercalate " " qp

/-- `RecommendationEngine.get_content_based_ml_recommendations`.
`sims` is the oracle for the TF-IDF cosine similarities of
`_prepare_content_features vd` against `_generate_user_query prefs`
(sklearn library output, one value per row). -/
def get_content_based_ml_recommendations (w : EngineWeights) (venues : Option (List Venue))
    (prefs : Prefs) (n : ℕ) (sims : List ℚ) (raises pRaises : Bool) :
    Option (List RecRow) :=
  if raises then get_personalized_recommendations w venues prefs n 0.3 pRaises
  else match venues with
  | none => none
  | some vd =>
    if vd.isEmpty then none
    else
      let content_features := _prepare_content_features vd
      if content_features.isEmpty then
        get_personalized_recommendations w venues prefs n 0.3 pRaises
      else
        let rows : List RecRow := (vd.zip sims).map (fun p =>
          ⟨p.1, p.2 * 10 + p.1.rating * 0.3, "內容相似性推薦 - 基於場地描述和特徵匹配"⟩)
        let rows2 := rows.filter (fun r => decide ((3 : ℚ) ≤ r.recommendation_score))
        if rows2.isEmpty then get_personalized_recommendations w venues prefs n 0.3 pRaises
        else some (nlargest n RecRow.recommendation_score rows2)

/- ### utils/map_utils.py : distance, nearest venue, proximity clusters -/

open scoped Classical

/-- `MapUtils.calculate_distance`: the haversine great-circle distance in
kilometers with earth radius 6371, after `math.radians` degree conversion.
Modelled over ℝ with the exact transcendental functions. -/
noncomputable def calculate_distance (lat1 lon1 lat2 lon2 : ℝ) : ℝ :=
  let rlat1 := lat1 * Real.pi / 180
  let rlon1 := lon1 * Real.pi / 180
  let rlat2 := lat2 * Real.pi / 180
  let rlon2 := lon2 * Real.pi / 180
  let dlat := rlat2 - rlat1
  let dlon := rlon2 - rlon1
  let a := Real.sin (dlat / 2) ^ 2 +
    Real.cos rlat1 * Real.cos rlat2 * Real.sin (dlon / 2) ^ 2
  let c := 2 * Real.arcsin (Real.sqrt a)
  6371 * c

/-- The row step of the `find_nearest_venue` scan.  The source starts with
`min_distance = inf`, which every computed (finite) distance beats, so the
initial state is modelled by `none`. -/
noncomputable def find_nearest_step (target_lat target_lon : ℝ)
    (acc : Option (Venue × ℝ)) (v : Venue) : Option (Venue × ℝ) :=
  match v.latitude, v.longitude with
  | some la, some lo =>
    let d := calculate_distance target_lat target_lon (la : ℝ) (lo : ℝ)
    match acc with
    | none => some (v, d)
    | some b => if d < b.2 then some (v, d) else some b
  | _, _ => acc

/-- `MapUtils.find_nearest_venue`: `None` on an empty table (and rows with
a missing coordinate are skipped); otherwise the minimum-distance row
annotated with its distance.  The latitude/longitude columns are part of
the `Venue` record, so the missing-column early return does not arise in
the model. -/
noncomputable def find_nearest_venue (venues : List Venue)
    (target_lat target_lon : ℝ) : Option (Venue × ℝ) :=
  if venues.isEmpty then none
  else venues.foldl (find_nearest_step target_lat target_lon) none

/-- Both coordinates of a row, when present. -/
def coordsOf (v : Venue) : Option (ℚ × ℚ) :=
  match v.latitude, v.longitude with
  | some a, some b => some (a, b)
  | _, _ => none

/-- Row has non-null latitude and longitude. -/
def hasCoordsB (v : Venue) : Bool :=
  v.latitude.isSome && v.longitude.isSome

/-- The inner distance test of `cluster_venues_by_proximity`:
`calculate_distance(seed, other) <= max_distance_km` (false when either row
lacks a coordinate — such rows are `continue`d over). -/
noncomputable def near_pred (maxd : ℝ) (v w : Venue) : Bool :=
  match coordsOf v, coordsOf w with
  | some a, some b =>
    decide (calculate_distance (a.1 : ℝ) (a.2 : ℝ) (b.1 : ℝ) (b.2 : ℝ) ≤ maxd)
  | _, _ => false

/-- The inner loop of `cluster_venues_by_proximity`: scan the whole table
and collect every row index that is unassigned (the seed `i` was assigned
just before the loop), has coordinates, and is within `maxd` of the seed. -/
noncomputable def gatherNear (all : List (ℕ × Venue)) (assigned : List ℕ)
    (i : ℕ) (v : Venue) (maxd : ℝ) : List ℕ :=
  (all.filter (fun jw =>
    !(i :: assigned).contains jw.1 && hasCoordsB jw.2 && near_pred maxd v jw.2)).map
    Prod.fst

/-- The outer loop of `cluster_venues_by_proximity`: walk the rows; a row
already assigned or without coordinates is skipped, otherwise it seeds a
new cluster together with the unassigned nearby rows found by the inner
scan. -/
noncomputable def clusterRun (all : List (ℕ × Venue)) (maxd : ℝ) :
    List (ℕ × Venue) → List ℕ → List (List ℕ)
  | [], _ => []
  | (i, v) :: rest, assigned =>
    if assigned.contains i || !hasCoordsB v then clusterRun all maxd rest assigned
    else
      let c := i :: gatherNear all assigned i v maxd
      c :: clusterRun all maxd rest (assigned ++ c)

/-- `MapUtils.cluster_venues_by_proximity`: the produced clusters, as lists
of row indices, in creation order (the source keys them `cluster_0`,
`cluster_1`, … in the same order). -/
noncomputable def cluster_venues_by_proximity (venues : List Venue) (maxd : ℝ) :
    List (List ℕ) :=
  clusterRun venues.enum maxd venues.enum []

/- ### auxiliary geometry for the haversine metric proof -/

open RealInnerProductSpace

/-- The point of the unit sphere at latitude `phi`, longitude `lam`
(radians).  The haversine value computed by `calculate_distance` equals
`(1 - ⟪sphVec .., sphVec ..⟫)/2`, which identifies the computed distance
with `6371 * arccos ⟪· , ·⟫` and yields the metric properties. -/
noncomputable def sphVec (phi lam : ℝ) : EuclideanSpace ℝ (Fin 3) :=
  ![Real.cos phi * Real.cos lam, Real.cos phi * Real.sin lam, Real.sin phi]

/- ### concrete fixtures used by witnesses and counterexamples -/

/-- A loaded-shape venue row used as a concrete test input. -/
def testVenueA : Venue :=
  ⟨1, "大安運動中心", "大安區", "台北市大安區辛亥路三段55號", "籃球", some 300, 4.5,
   "停車場/淋浴間", "室內籃球場地", "02-12345678", "06:00-22:00", "", "大型", "", "",
   some 25.0266, some 121.5484⟩

/-- Preferences matching `testVenueA` with price range [0, 500]. -/
def prefsA : Prefs := ⟨["籃球"], ["大安區"], some (0, 500)⟩

/-- The scored row `_calculate_recommendation_scores` produces for
`testVenueA` under `prefsA`. -/
def svA : ScoredVenue := ⟨testVenueA, 1, 1, 1, 1, 1, 1, 0.7, 9.7⟩

/-- `svA` after the diversity penalty for a two-member 籃球 group at
diversity weight 0.5: score 9.7 - min(0.5*(2-1)*0.1, 2) = 9.65. -/
def svApen : ScoredVenue := ⟨testVenueA, 1, 1, 1, 1, 1, 1, 0.7, 9.65⟩

/-- An empty preferences dictionary. -/
def defaultPrefs : Prefs := ⟨[], [], none⟩

/-- A venue whose only field containing "gym" is the name, with no
trailing space after it. -/
def testVenueGym : Venue :=
  ⟨2, "health gym", "x", "x", "x", some 300, 4, "x", "x", "x", "x", "x", "x", "x", "x",
   some 25, some 121⟩

/-- A single venue row with a missing latitude. -/
def testVenueNoCoords : Venue :=
  ⟨3, "no-coords", "大安區", "x", "籃球", some 300, 4, "x", "x", "x", "x", "x", "x", "x",
   "x", none, some 121.5⟩

/-- A raw CSV row with every cell NaN. -/
def testRawRow : RawRow :=
  ⟨none, none, none, none, none, none, none, none, none, none, none, none, none⟩

/- ### C6 : wind-direction bucketing -/

/-- C6 (counterexample): the claim's index formula is
`floor((deg+11.25)/22.5) mod 16`, but Python `int()` truncates toward zero,
so at deg = -30 the code yields label index 0 ("北風") while the claimed
floor formula yields index 15 ("北北西風"). -/
theorem C6_counterexample :
    _convert_wind_direction (-30) = "北風" ∧ wind_label_spec (-30) = "北北西風" ∧
    _convert_wind_direction (-30) ≠ wind_label_spec (-30) := by
  have hq : ((-30 : ℚ) + 11.25) / 22.5 = -5 / 6 := by norm_num
  have h1 : _convert_wind_direction (-30) = "北風" := by
    unfold _convert_wind_direction pyInt
    rw [hq, if_neg (by norm_num), show (⌈(-5 / 6 : ℚ)⌉ : ℤ) = 0 by norm_num]
    rfl
  have h2 : wind_label_spec (-30) = "北北西風" := by
    unfold wind_label_spec
    rw [hq, show (⌊(-5 / 6 : ℚ)⌋ : ℤ) = -1 by norm_num]
    rfl
  exact ⟨h1, h2, by rw [h1, h2]; decide⟩

/-- C6 (amended): the conversion uses truncation toward zero, which agrees
with the claimed floor formula for every degree value ≥ -11.25 (in
particular on the whole meteorological 0–360 range), and the four cardinal
anchors map as claimed: 0° to 北風, 90° to 東風, 180° to 南風, 270° to 西風. -/
theorem C6_wind_direction :
    (∀ degrees : ℚ, -11.25 ≤ degrees →
      _convert_wind_direction degrees = wind_label_spec degrees) ∧
    _convert_wind_direction 0 = "北風" ∧ _convert_wind_direction 90 = "東風" ∧
    _convert_wind_direction 180 = "南風" ∧ _convert_wind_direction 270 = "西風" := by
  refine ⟨?_, ?_, ?_, ?_, ?_⟩
  · intro degrees h
    have hq : (0 : ℚ) ≤ (degrees + 11.25) / 22.5 := by
      apply div_nonneg
      · linarith
      · norm_num
    unfold _convert_wind_direction wind_label_spec pyInt
    rw [if_pos hq]
  · unfold _convert_wind_direction pyInt
    rw [show ((0 : ℚ) + 11.25) / 22.5 = 1 / 2 by norm_num, if_pos (by norm_num),
        show (⌊(1 / 2 : ℚ)⌋ : ℤ) = 0 by norm_num]
    rfl
  · unfold _convert_wind_direction pyInt
    rw [show ((90 : ℚ) + 11.25) / 22.5 = 9 / 2 by norm_num, if_pos (by norm_num),
        show (⌊(9 / 2 : ℚ)⌋ : ℤ) = 4 by norm_num]
    rfl
  · unfold _convert_wind_direction pyInt
    rw [show ((180 : ℚ) + 11.25) / 22.5 = 17 / 2 by norm_num, if_pos (by norm_num),
        show (⌊(17 / 2 : ℚ)⌋ : ℤ) = 8 by norm_num]
    rfl
  · unfold _convert_wind_direction pyInt
    rw [show ((270 : ℚ) + 11.25) / 22.5 = 25 / 2 by norm_num, if_pos (by norm_num),
        show (⌊(25 / 2 : ℚ)⌋ : ℤ) = 12 by norm_num]
    rfl

/-- Witness for C6_wind_direction at degrees = 45. -/
theorem C6_wind_direction_witness :
    (-11.25 : ℚ) ≤ 45 ∧ _convert_wind_direction 45 = wind_label_spec 45 :=
  ⟨by norm_num, C6_wind_direction.1 45 (by norm_num)⟩

/- ### C10 : loaded price is always a present value in [100, 700] -/

/-- C10: for every raw input row, the loader stores
`price_per_hour = some (_extract_price_static …)`, a value between 100 and
700 inclusive (150/350/700 for the recognized buckets, otherwise the
randint draw from [100,500] or [200,400]); in particular the price is never
null, so `_calculate_price_match`'s missing-price branch cannot fire for
store-loaded venues. -/
theorem C10_loaded_price_present_and_bounded :
    ∀ (idx : ℕ) (row : RawRow) (r1 r2 : ℕ) (rating : ℚ),
      100 ≤ r1 → r1 ≤ 500 → 200 ≤ r2 → r2 ≤ 400 →
      ∃ p : ℚ, (load_venue idx row r1 r2 rating).price_per_hour = some p ∧
        p = ((_extract_price_static row.price_range r1 r2 : ℕ) : ℚ) ∧
        100 ≤ p ∧ p ≤ 700 := by
  intro idx row r1 r2 rating h1 h2 h3 h4
  have hb : 100 ≤ _extract_price_static row.price_range r1 r2 ∧
      _extract_price_static row.price_range r1 r2 ≤ 700 := by
    unfold _extract_price_static
    rcases row.price_range with _ | s
    · dsimp only
      omega
    · dsimp only
      split_ifs <;> omega
  refine ⟨_, rfl, rfl, ?_, ?_⟩
  · exact_mod_cast hb.1
  · exact_mod_cast hb.2

/-- Witness for C10 at the all-NaN raw row with draws 300 and 300. -/
theorem C10_witness :
    ((100 ≤ 300 ∧ 300 ≤ 500 ∧ 200 ≤ 300 ∧ 300 ≤ 400) ∧
      ∃ p : ℚ, (load_venue 0 testRawRow 300 300 4).price_per_hour = some p ∧
        p = ((_extract_price_static testRawRow.price_range 300 300 : ℕ) : ℚ) ∧
        100 ≤ p ∧ p ≤ 700) :=
  ⟨⟨by omega, by omega, by omega, by omega⟩,
   C10_loaded_price_present_and_bounded 0 testRawRow 300 300 4
     (by omega) (by omega) (by omega) (by omega)⟩

/- ### C3 : filter with no arguments / with unmatched predicates -/

/-- A result of the shape `if l.isEmpty then none else some l` is never
`some []`. -/
theorem ite_isEmpty_ne_some_nil (l : List Venue) :
    (if l.isEmpty then none else some l) ≠ some ([] : List Venue) := by
  by_cases h : l.isEmpty = true
  · rw [if_pos h]
    exact fun he => Option.noConfusion he
  · rw [if_neg h]
    intro he
    rw [Option.some.injEq] at he
    exact h (by rw [he]; rfl)


/-- C3 (counterexample): on a one-row table whose sport_type is 籃球, a
sport filter for 壁球 matches no row, and `get_filtered_venues` returns
`None` — the distinguished absent value — not an empty table. -/
theorem C3_counterexample :
    get_filtered_venues [testVenueA] ["壁球"] [] none [] 0 "" = none ∧
    get_filtered_venues [testVenueA] ["壁球"] [] none [] 0 "" ≠ some [] := by
  exact ⟨by decide, by decide⟩

/-- C3 (amended): on a nonempty loaded table, `get_filtered_venues` with no
filter argument supplied returns the full table; and it never returns an
empty table — whenever the conjunction of the supplied predicates matches
no row (and also when the loaded table itself is empty) it returns `None`
instead. -/
theorem C3_filter_full_or_none :
    (∀ venues : List Venue, venues ≠ [] →
      get_filtered_venues venues [] [] none [] 0 "" = some venues) ∧
    (∀ (venues : List Venue) (st di : List String) (pr : Option (ℚ × ℚ))
        (fa : List String) (mr : ℚ) (sq : String),
      get_filtered_venues venues st di pr fa mr sq ≠ some ([] : List Venue)) := by
  constructor
  · intro venues hne
    rcases venues with _ | ⟨v, vs⟩
    · exact absurd rfl hne
    · rfl
  · intro venues st di pr fa mr sq
    unfold get_filtered_venues
    dsimp only
    split
    · simp
    · by_cases hsq : (sq == "") = true
      · rw [if_pos hsq]
        dsimp only
        exact ite_isEmpty_ne_some_nil _
      · rw [if_neg hsq]
        rcases hsv : search_venues venues sq with _ | r
        · dsimp only
          simp
        · dsimp only
          exact ite_isEmpty_ne_some_nil _

/-- Witness for C3_filter_full_or_none on a one-row table. -/
theorem C3_witness :
    ([testVenueA] ≠ ([] : List Venue)) ∧
    get_filtered_venues [testVenueA] [] [] none [] 0 "" = some [testVenueA] :=
  ⟨by decide, C3_filter_full_or_none.1 [testVenueA] (by decide)⟩

/- ### C4 : search results contain the query -/

/-- From `(if l.isEmpty then none else some l) = some res` conclude
`res = l`. -/
theorem eq_of_ite_isEmpty_eq_some {α : Type} {l res : List α}
    (h : (if l.isEmpty then none else some l) = some res) : res = l := by
  split at h
  · exact Option.noConfusion h
  · injection h with h2
    exact h2.symm

/-- Membership in an `if c then l.filter p else l` implies membership in l. -/
theorem mem_of_ite_filter_right {α : Type} (c : Prop) [Decidable c] (p : α → Bool)
    (l : List α) (v : α) (h : v ∈ if c then l.filter p else l) : v ∈ l := by
  split at h
  · exact List.mem_of_mem_filter h
  · exact h

/-- Membership in an `if c then l else l.filter p` implies membership in l. -/
theorem mem_of_ite_filter_left {α : Type} (c : Prop) [Decidable c] (p : α → Bool)
    (l : List α) (v : α) (h : v ∈ if c then l else l.filter p) : v ∈ l := by
  split at h
  · exact h
  · exact List.mem_of_mem_filter h

/-- Membership after a fold of filters implies membership in the start
list (the facilities conjunction of `get_filtered_venues`). -/
theorem mem_of_mem_foldl_filter {α β : Type} (p : β → α → Bool) :
    ∀ (fs : List β) (l : List α) (v : α),
      v ∈ fs.foldl (fun acc f => acc.filter (p f)) l → v ∈ l := by
  intro fs
  induction fs with
  | nil => intro l v h; simpa using h
  | cons f fs ih =>
    intro l v h
    exact List.mem_of_mem_filter (ih (l.filter (p f)) v h)

/-- Every row in a `search_venues` result satisfies the lowered, stripped
query mask. -/
theorem search_venues_mem_matches :
    ∀ (venues : List Venue) (query : String) (res : List Venue) (v : Venue),
      search_venues venues query = some res → v ∈ res →
      row_matches v (pyStrip (pyLower query)) = true := by
  intro venues query res v hs hv
  unfold search_venues at hs
  split at hs
  · exact Option.noConfusion hs
  · dsimp only at hs
    split at hs
    · exact Option.noConfusion hs
    · rw [Option.some.injEq] at hs
      subst hs
      exact (List.mem_filter.1 hv).2

/-- C4 (counterexample): the query "gym " (trailing blank) is stripped
before matching, so the venue named "health gym" is returned although no
searched field contains the string "gym " itself — the claim's
"contains q" predicate fails on a returned row. -/
theorem C4_counterexample :
    search_venues [testVenueGym] "gym " = some [testVenueGym] ∧
    row_matches testVenueGym "gym " = false :=
  ⟨by decide, by decide⟩

/-- C4 (amended): every row returned by `search_venues` — and by
`get_filtered_venues` when a nonempty searchQuery is supplied — contains
the lowercased, whitespace-stripped query as a substring of the lowercased
content of at least one of name/address/district/sport_type/facilities/
description (`row_matches`); matching is pandas `str.contains`, i.e. regex
based, which coincides with substring containment for metacharacter-free
queries as modelled here. -/
theorem C4_search_substring_match :
    (∀ (venues : List Venue) (query : String) (res : List Venue) (v : Venue),
      search_venues venues query = some res → v ∈ res →
      row_matches v (pyStrip (pyLower query)) = true) ∧
    (∀ (venues : List Venue) (st di : List String) (pr : Option (ℚ × ℚ))
        (fa : List String) (mr : ℚ) (query : String) (res : List Venue) (v : Venue),
      query ≠ "" →
      get_filtered_venues venues st di pr fa mr query = some res → v ∈ res →
      row_matches v (pyStrip (pyLower query)) = true) := by
  constructor
  · exact search_venues_mem_matches
  · intro venues st di pr fa mr query res v hq hgf hv
    unfold get_filtered_venues at hgf
    dsimp only at hgf
    split at hgf
    · exact Option.noConfusion hgf
    · have hsq : ¬((query == "") = true) := by simpa using hq
      rw [if_neg hsq] at hgf
      cases hsv : search_venues venues query with
      | none =>
        rw [hsv] at hgf
        dsimp only at hgf
        exact Option.noConfusion hgf
      | some r =>
        rw [hsv] at hgf
        dsimp only at hgf
        have hres := eq_of_ite_isEmpty_eq_some hgf
        · subst hres
          have h4 := mem_of_ite_filter_right _ _ _ v hv
          have h3 := mem_of_mem_foldl_filter _ fa _ v h4
          have h2 : v ∈ (if di.isEmpty then
              (if st.isEmpty then r else r.filter (fun u => st.contains u.sport_type))
            else
              (if st.isEmpty then r else r.filter (fun u => st.contains u.sport_type)).filter
                (fun u => di.contains u.district)) := by
            rcases pr with _ | pr0
            · exact h3
            · exact List.mem_of_mem_filter h3
          have h1 := mem_of_ite_filter_left _ _ _ v h2
          have h0 := mem_of_ite_filter_left _ _ _ v h1
          exact search_venues_mem_matches venues query r v hsv h0

/-- Witness for C4_search_substring_match on a one-row table with the
query "GYM". -/
theorem C4_witness :
    (search_venues [testVenueGym] "GYM" = some [testVenueGym] ∧
     testVenueGym ∈ [testVenueGym] ∧
     row_matches testVenueGym (pyStrip (pyLower "GYM")) = true) ∧
    (("GYM" : String) ≠ "" ∧
     get_filtered_venues [testVenueGym] [] [] none [] 0 "GYM" = some [testVenueGym] ∧
     row_matches testVenueGym (pyStrip (pyLower "GYM")) = true) :=
  ⟨⟨by decide, by decide,
    C4_search_substring_match.1 [testVenueGym] "GYM" [testVenueGym] testVenueGym
      (by decide) (by decide)⟩,
   ⟨by decide, by decide,
    C4_search_substring_match.2 [testVenueGym] [] [] none [] 0 "GYM" [testVenueGym]
      testVenueGym (by decide) (by decide) (by decide)⟩⟩

/- ### C5 : diversity adjustment -/

/-- A list zipped with its own map enumerates the pairs `(x, f x)`. -/
theorem zip_self_map {α β : Type} (f : α → β) :
    ∀ l : List α, l.zip (l.map f) = l.map (fun x => (x, f x))
  | [] => rfl
  | a :: t => by
    rw [List.map_cons, List.zip_cons_cons, zip_self_map f t, List.map_cons]

/-- `pyMin` is Mathlib's `min`. -/
theorem pyMin_eq_min (a b : ℚ) : pyMin a b = min a b := by
  unfold pyMin
  rw [min_def]

/-- `pyMax` is Mathlib's `max`. -/
theorem pyMax_eq_max (a b : ℚ) : pyMax a b = max a b := by
  unfold pyMax
  rw [max_def]

/-- C5: pairing each input row with its output row, the diversity
adjustment subtracts exactly `min(diversityWeight*(groupSize-1)*0.1, 2)`
from the score (groupSize = number of venues sharing the row's sport_type),
never increases any score, and strictly decreases the score of every venue
whose same-sport group has more than one member when the weight is
positive. -/
theorem C5_diversity_penalty :
    ∀ (rows : List ScoredVenue) (dw : ℚ), 0 ≤ dw → dw ≤ 1 →
      (_apply_diversity rows dw).length = rows.length ∧
      ∀ p ∈ rows.zip (_apply_diversity rows dw),
        p.2.venue = p.1.venue ∧
        p.2.recommendation_score = p.1.recommendation_score -
          min (dw * (((rows.filter (fun s =>
            s.venue.sport_type == p.1.venue.sport_type)).length : ℚ) - 1) * 0.1) 2 ∧
        p.2.recommendation_score ≤ p.1.recommendation_score ∧
        (0 < dw → 1 < (rows.filter (fun s =>
            s.venue.sport_type == p.1.venue.sport_type)).length →
          p.2.recommendation_score < p.1.recommendation_score) := by
  intro rows dw h0 h1
  constructor
  · unfold _apply_diversity
    exact List.length_map _ _
  · intro p hp
    unfold _apply_diversity at hp
    rw [zip_self_map] at hp
    rcases List.mem_map.1 hp with ⟨r, hrmem, hpr⟩
    subst hpr
    have hgs1 : 1 ≤ (rows.filter (fun s =>
        s.venue.sport_type == r.venue.sport_type)).length := by
      have hmf : r ∈ rows.filter (fun s =>
          s.venue.sport_type == r.venue.sport_type) :=
        List.mem_filter.2 ⟨hrmem, by simp⟩
      exact List.length_pos.2 (List.ne_nil_of_mem hmf)
    have hcast : (1 : ℚ) ≤ ((rows.filter (fun s =>
        s.venue.sport_type == r.venue.sport_type)).length : ℚ) := by
      exact_mod_cast hgs1
    have hpen0 : 0 ≤ min (dw * (((rows.filter (fun s =>
        s.venue.sport_type == r.venue.sport_type)).length : ℚ) - 1) * 0.1) 2 := by
      apply le_min
      · apply mul_nonneg (mul_nonneg h0 (by linarith)) (by norm_num)
      · norm_num
    refine ⟨rfl, ?_, ?_, ?_⟩
    · dsimp only
      rw [pyMin_eq_min]
    · dsimp only
      rw [pyMin_eq_min]
      exact sub_le_self _ hpen0
    · intro hdw hgs2
      dsimp only
      rw [pyMin_eq_min]
      apply sub_lt_self
      apply lt_min
      · refine mul_pos (mul_pos hdw ?_) (by norm_num)
        have h2c : (2 : ℚ) ≤ ((rows.filter (fun s =>
            s.venue.sport_type == r.venue.sport_type)).length : ℚ) := by
          exact_mod_cast hgs2
        linarith
      · norm_num

/-- Witness for C5_diversity_penalty: two identical 籃球 rows at
diversity weight 0.5; the score drops from 9.7 to 9.65. -/
theorem C5_witness :
    ((0 : ℚ) ≤ 0.5 ∧ (0.5 : ℚ) ≤ 1 ∧
      ((svA, svApen) : ScoredVenue × ScoredVenue) ∈
        ([svA, svA].zip (_apply_diversity [svA, svA] 0.5))) ∧
    (svApen.venue = svA.venue ∧
     svApen.recommendation_score = svA.recommendation_score -
       min (0.5 * ((([svA, svA].filter (fun s =>
         s.venue.sport_type == svA.venue.sport_type)).length : ℚ) - 1) * 0.1) 2 ∧
     svApen.recommendation_score ≤ svA.recommendation_score ∧
     ((0 : ℚ) < 0.5 → 1 < ([svA, svA].filter (fun s =>
         s.venue.sport_type == svA.venue.sport_type)).length →
       svApen.recommendation_score < svA.recommendation_score)) :=
  ⟨⟨by norm_num, by norm_num, by decide⟩,
   ((C5_diversity_penalty [svA, svA] 0.5 (by norm_num) (by norm_num)).2
     (svA, svApen) (by decide))⟩

/- ### C1 : preference-weighted score bounds and rating monotonicity -/

/-- The seed of a `pyMax` fold bounds the fold from below. -/
theorem le_foldl_pyMax_init : ∀ (l : List ℚ) (a : ℚ), a ≤ l.foldl pyMax a
  | [], a => le_refl a
  | c :: t, a => by
    rw [List.foldl_cons]
    exact le_trans (by rw [pyMax_eq_max]; exact le_max_left a c)
      (le_foldl_pyMax_init t (pyMax a c))

/-- Every member of a list bounds its `pyMax` fold from below. -/
theorem le_foldl_pyMax : ∀ (l : List ℚ) (a b : ℚ), b ∈ l → b ≤ l.foldl pyMax a := by
  intro l
  induction l with
  | nil => intro a b h; simp at h
  | cons c t ih =>
    intro a b h
    rw [List.foldl_cons]
    rcases List.mem_cons.1 h with rfl | ht
    · exact le_trans (by rw [pyMax_eq_max]; exact le_max_right a b)
        (le_foldl_pyMax_init t (pyMax a b))
    · exact ih _ b ht

/-- The preference-match component always lies in [0, 1]. -/
theorem preference_match_bounds (prefs : Prefs) (v : Venue) :
    0 ≤ preference_match prefs v ∧ preference_match prefs v ≤ 1 := by
  unfold preference_match sport_match district_match
  split_ifs <;> norm_num

/-- The rating-weight component lies in [0, 1] for a table of nonnegative
ratings. -/
theorem rating_weight_bounds (venues : List Venue) (v : Venue) (hv : v ∈ venues)
    (hr : ∀ u ∈ venues, 0 ≤ u.rating) :
    0 ≤ rating_weight venues v ∧ rating_weight venues v ≤ 1 := by
  unfold rating_weight
  by_cases hm : max_rating venues > 0
  · rw [if_pos hm]
    refine ⟨div_nonneg (hr v hv) (le_of_lt hm), ?_⟩
    rw [div_le_one hm]
    unfold max_rating
    exact le_foldl_pyMax _ 0 _ (List.mem_map_of_mem _ hv)
  · rw [if_neg hm]
    norm_num

/-- The price-match component lies in [0, 1] when the preferred maximum
price is positive. -/
theorem price_match_bounds (prefs : Prefs) (v : Venue)
    (hp : 0 < (pref_price_range prefs).2) :
    0 ≤ price_match prefs v ∧ price_match prefs v ≤ 1 := by
  unfold price_match
  cases h : v.price_per_hour with
  | none => simp only [h]; norm_num
  | some x =>
    simp only [h]
    split_ifs with hin
    · norm_num
    · rw [pyMax_eq_max]
      have hq : 0 ≤ |x - ((pref_price_range prefs).1 + (pref_price_range prefs).2) / 2| /
          (pref_price_range prefs).2 :=
        div_nonneg (abs_nonneg _) (le_of_lt hp)
      constructor
      · exact le_max_left 0 _
      · apply max_le <;> linarith

/-- The distance-score component always lies in [0, 1]. -/
theorem distance_score_bounds (prefs : Prefs) (v : Venue) :
    0 ≤ distance_score prefs v ∧ distance_score prefs v ≤ 1 := by
  unfold distance_score
  split_ifs <;> norm_num

/-- C1: with the default weights {0.30, 0.25, 0.20, 0.15, 0.10}, every
composite score of `_calculate_recommendation_scores` lies in [0, 10]
(for tables with nonnegative ratings, per the data model, and a positive
preferred maximum price so that the decay division is defined), and the
combination is monotonically non-decreasing in the rating_weight component
holding the other four components fixed. -/
theorem C1_preference_weighted_score :
    (∀ (venues : List Venue) (prefs : Prefs) (sv : ScoredVenue),
      (∀ u ∈ venues, 0 ≤ u.rating) → 0 < (pref_price_range prefs).2 →
      sv ∈ _calculate_recommendation_scores default_weights venues prefs →
      0 ≤ sv.recommendation_score ∧ sv.recommendation_score ≤ 10) ∧
    (∀ pm rw1 rw2 prm ds fm : ℚ, rw1 ≤ rw2 →
      combine_score default_weights pm rw1 prm ds fm ≤
      combine_score default_weights pm rw2 prm ds fm) := by
  constructor
  · intro venues prefs sv hr hp hm
    unfold _calculate_recommendation_scores at hm
    rcases List.mem_map.1 hm with ⟨v, hvmem, hsv⟩
    subst hsv
    have h1 := preference_match_bounds prefs v
    have h2 := rating_weight_bounds venues v hvmem hr
    have h3 := price_match_bounds prefs v hp
    have h4 := distance_score_bounds prefs v
    dsimp only
    unfold combine_score default_weights facility_match
    dsimp only
    constructor <;> linarith [h1.1, h1.2, h2.1, h2.2, h3.1, h3.2, h4.1, h4.2]
  · intro pm rw1 rw2 prm ds fm h
    unfold combine_score default_weights
    dsimp only
    linarith

/-- Witness for C1 on a one-row table fully matching the preferences:
score 9.7 ∈ [0, 10], and the monotonicity instance at rating weights
0 ≤ 1. -/
theorem C1_witness :
    ((∀ u ∈ [testVenueA], 0 ≤ u.rating) ∧ 0 < (pref_price_range prefsA).2 ∧
      svA ∈ _calculate_recommendation_scores default_weights [testVenueA] prefsA) ∧
    (0 ≤ svA.recommendation_score ∧ svA.recommendation_score ≤ 10) ∧
    ((0 : ℚ) ≤ 1 ∧
      combine_score default_weights 1 0 1 1 0.7 ≤ combine_score default_weights 1 1 1 1 0.7) :=
  ⟨⟨by decide, by decide, by decide⟩,
   C1_preference_weighted_score.1 [testVenueA] prefsA svA (by decide) (by decide) (by decide),
   ⟨by norm_num, C1_preference_weighted_score.2 1 0 1 1 1 0.7 (by norm_num)⟩⟩

/- ### C2 : strategy failure policy -/

/-- C2 (counterexample): an internal exception in `get_trending_venues`
yields `None` directly even though the preference-weighted strategy would
succeed on the same data — so "any exception causes a graceful fallback to
the preference-weighted strategy, or None if that also yields nothing"
fails for the trending strategy. -/
theorem C2_counterexample :
    get_trending_venues (some [testVenueA]) 10 [0.5] true = none ∧
    get_personalized_recommendations default_weights (some [testVenueA])
      defaultPrefs 10 0.3 false ≠ none :=
  ⟨rfl, by decide⟩

/-- C2 (amended): no strategy ever propagates an exception (each returns a
value or `None`); on empty or missing upstream venue data every strategy
returns `None`; on an internal exception the ML, cluster-based and
content-similarity strategies fall back to the preference-weighted strategy
(with its default diversity weight 0.3), while the personalized, trending,
new-venues, collaborative and rating-based strategies return `None`
directly; the ML and cluster strategies also fall back when their feature
preparation fails. -/
theorem C2_failure_policy :
    (∀ (w : EngineWeights) (venues : Option (List Venue)) (prefs : Prefs)
       (n : ℕ) (dw : ℚ),
      get_personalized_recommendations w venues prefs n dw true = none) ∧
    (∀ venues n pops, get_trending_venues venues n pops true = none) ∧
    (∀ venues n idxs draws, get_new_venues venues n idxs draws true = none) ∧
    (∀ venues prefs n coins,
      get_collaborative_recommendations venues prefs n coins true = none) ∧
    (∀ venues prefs n draws,
      get_rating_based_recommendations venues prefs n draws true = none) ∧
    (∀ w venues prefs n featuresOk modelOk draws pR,
      get_ml_based_recommendations w venues prefs n featuresOk modelOk draws true pR =
        get_personalized_recommendations w venues prefs n 0.3 pR) ∧
    (∀ w venues prefs n featuresOk labels draws pR,
      get_cluster_based_recommendations w venues prefs n featuresOk labels draws true pR =
        get_personalized_recommendations w venues prefs n 0.3 pR) ∧
    (∀ w venues prefs n sims pR,
      get_content_based_ml_recommendations w venues prefs n sims true pR =
        get_personalized_recommendations w venues prefs n 0.3 pR) ∧
    (∀ w prefs n dw r,
      get_personalized_recommendations w none prefs n dw r = none ∧
      get_personalized_recommendations w (some []) prefs n dw false = none) ∧
    (∀ n pops,
      get_trending_venues none n pops false = none ∧
      get_trending_venues (some []) n pops false = none) ∧
    (∀ n idxs draws,
      get_new_venues none n idxs draws false = none ∧
      get_new_venues (some []) n idxs draws false = none) ∧
    (∀ prefs n coins,
      get_collaborative_recommendations none prefs n coins false = none ∧
      get_collaborative_recommendations (some []) prefs n coins false = none) ∧
    (∀ prefs n draws,
      get_rating_based_recommendations none prefs n draws false = none ∧
      get_rating_based_recommendations (some []) prefs n draws false = none) ∧
    (∀ w prefs n featuresOk modelOk draws pR,
      get_ml_based_recommendations w none prefs n featuresOk modelOk draws false pR = none ∧
      get_ml_based_recommendations w (some []) prefs n featuresOk modelOk draws false pR = none) ∧
    (∀ w prefs n featuresOk labels draws pR,
      get_cluster_based_recommendations w none prefs n featuresOk labels draws false pR = none ∧
      get_cluster_based_recommendations w (some []) prefs n featuresOk labels draws false pR = none) ∧
    (∀ w prefs n sims pR,
      get_content_based_ml_recommendations w none prefs n sims false pR = none ∧
      get_content_based_ml_recommendations w (some []) prefs n sims false pR = none) ∧
    (∀ w v rest prefs n modelOk draws pR,
      get_ml_based_recommendations w (some (v :: rest)) prefs n false modelOk draws false pR =
        get_personalized_recommendations w (some (v :: rest)) prefs n 0.3 pR) ∧
    (∀ w v rest prefs n labels draws pR,
      get_cluster_based_recommendations w (some (v :: rest)) prefs n false labels draws false pR =
        get_personalized_recommendations w (some (v :: rest)) prefs n 0.3 pR) := by
  refine ⟨fun w venues prefs n dw => rfl,
          fun venues n pops => rfl,
          fun venues n idxs draws => rfl,
          fun venues prefs n coins => rfl,
          fun venues prefs n draws => rfl,
          fun w venues prefs n fO mO draws pR => rfl,
          fun w venues prefs n fO labels draws pR => rfl,
          fun w venues prefs n sims pR => rfl,
          fun w prefs n dw r => ⟨?_, rfl⟩,
          fun n pops => ⟨rfl, rfl⟩,
          fun n idxs draws => ⟨rfl, rfl⟩,
          fun prefs n coins => ⟨rfl, rfl⟩,
          fun prefs n draws => ⟨rfl, rfl⟩,
          fun w prefs n fO mO draws pR => ⟨rfl, rfl⟩,
          fun w prefs n fO labels draws pR => ⟨rfl, rfl⟩,
          fun w prefs n sims pR => ⟨rfl, rfl⟩,
          fun w v rest prefs n mO draws pR => rfl,
          fun w v rest prefs n labels draws pR => rfl⟩
  cases r <;> rfl

/- ### C8 : nearest venue on empty and one-row tables -/

/-- C8 (counterexample): a single-row table whose row has a missing
latitude makes `find_nearest_venue` skip the row and return `None`, not
that row — the claim fails for single-row tables with a null coordinate. -/
theorem C8_counterexample :
    find_nearest_venue [testVenueNoCoords] 25 121 = none := rfl

/-- C8 (amended): `find_nearest_venue` returns `None` on an empty table;
and on a single-row table whose row has both coordinates present it
returns that row annotated with its distance, regardless of the query
point. -/
theorem C8_nearest_venue :
    (∀ target_lat target_lon : ℝ,
      find_nearest_venue [] target_lat target_lon = none) ∧
    (∀ (v : Venue) (la lo : ℚ) (target_lat target_lon : ℝ),
      v.latitude = some la → v.longitude = some lo →
      find_nearest_venue [v] target_lat target_lon =
        some (v, calculate_distance target_lat target_lon (la : ℝ) (lo : ℝ))) := by
  constructor
  · intro a b
    rfl
  · intro v la lo tlat tlon hla hlo
    unfold find_nearest_venue
    rw [if_neg (by simp)]
    rw [List.foldl_cons, List.foldl_nil]
    unfold find_nearest_step
    rw [hla, hlo]

/-- Witness for C8_nearest_venue on the coordinate-bearing fixture row. -/
theorem C8_witness :
    testVenueA.latitude = some 25.0266 ∧ testVenueA.longitude = some 121.5484 ∧
    find_nearest_venue [testVenueA] 25 121 =
      some (testVenueA, calculate_distance 25 121 ((25.0266 : ℚ) : ℝ) ((121.5484 : ℚ) : ℝ)) :=
  ⟨rfl, rfl, C8_nearest_venue.2 testVenueA 25.0266 121.5484 25 121 rfl rfl⟩

/- ### C9 : proximity clusters partition the coordinate-bearing rows -/

/-- Indices collected by the inner scan are unassigned, different from the
seed, and belong to coordinate-bearing rows of the table. -/
theorem gatherNear_mem {all : List (ℕ × Venue)} {assigned : List ℕ} {i : ℕ}
    {v : Venue} {maxd : ℝ} {j : ℕ} (hj : j ∈ gatherNear all assigned i v maxd) :
    j ∉ assigned ∧ j ≠ i ∧ ∃ w, (j, w) ∈ all ∧ hasCoordsB w = true := by
  unfold gatherNear at hj
  rcases List.mem_map.1 hj with ⟨q, hmem, hq⟩
  obtain ⟨j2, w⟩ := q
  have hq2 : j2 = j := hq
  subst hq2
  rcases List.mem_filter.1 hmem with ⟨hall, hpred⟩
  simp only [Bool.and_eq_true, Bool.not_eq_true'] at hpred
  have hni : j2 ∉ i :: assigned := by
    intro hmem2
    have h2 : (i :: assigned).contains j2 = true := by
      simpa [List.contains] using List.elem_iff.2 hmem2
    rw [hpred.1.1] at h2
    exact Bool.noConfusion h2
  exact ⟨fun h => hni (List.mem_cons_of_mem _ h),
         fun h => hni (by rw [h]; exact List.mem_cons_self _ _),
         w, hall, hpred.1.2⟩

/-- Every index inside any produced cluster is outside the incoming
assigned set and names a coordinate-bearing row of the table. -/
theorem clusterRun_sound (all : List (ℕ × Venue)) (maxd : ℝ) :
    ∀ (rem : List (ℕ × Venue)) (assigned : List ℕ),
      (∀ p ∈ rem, p ∈ all) →
      ∀ c ∈ clusterRun all maxd rem assigned, ∀ j ∈ c,
        j ∉ assigned ∧ ∃ w, (j, w) ∈ all ∧ hasCoordsB w = true := by
  intro rem
  induction rem with
  | nil =>
    intro assigned hsub c hc
    rw [clusterRun] at hc
    exact absurd hc (List.not_mem_nil c)
  | cons p rest ih =>
    obtain ⟨i, v⟩ := p
    intro assigned hsub c hc j hj
    rw [clusterRun] at hc
    have hrest : ∀ q ∈ rest, q ∈ all := fun q hq => hsub q (List.mem_cons_of_mem _ hq)
    cases hAc : assigned.contains i <;> cases hCo : hasCoordsB v <;>
      simp only [hAc, hCo, Bool.or_false, Bool.or_true, Bool.false_or, Bool.true_or,
        Bool.not_true, Bool.not_false, if_true, if_false, ite_true, ite_false,
        eq_self_iff_true] at hc
    -- hAc = false, hCo = false : skip branch
    case false.false =>
      exact ih assigned hrest c hc j hj
    -- hAc = false, hCo = true : new cluster
    case false.true =>
      rcases List.mem_cons.1 hc with rfl | hcrest
      · rcases List.mem_cons.1 hj with rfl | hjg
        · refine ⟨?_, v, hsub (j, v) (List.mem_cons_self _ _), hCo⟩
          intro hmem
          have h2 : assigned.contains j = true := by
            simpa [List.contains] using List.elem_iff.2 hmem
          rw [hAc] at h2
          exact Bool.noConfusion h2
        · rcases gatherNear_mem hjg with ⟨hna, _, w, hw, hcw⟩
          exact ⟨hna, w, hw, hcw⟩
      · rcases ih (assigned ++ i :: gatherNear all assigned i v maxd) hrest c hcrest j hj
          with ⟨hna, hex⟩
        exact ⟨fun hmem => hna (List.mem_append_left _ hmem), hex⟩
    -- hAc = true : skip branch (either coordinate state)
    case true.false =>
      exact ih assigned hrest c hc j hj
    case true.true =>
      exact ih assigned hrest c hc j hj

/-- The produced clusters are pairwise disjoint. -/
theorem clusterRun_disjoint (all : List (ℕ × Venue)) (maxd : ℝ) :
    ∀ (rem : List (ℕ × Venue)) (assigned : List ℕ),
      (∀ p ∈ rem, p ∈ all) →
      List.Pairwise (fun c d => ∀ j ∈ c, j ∉ d) (clusterRun all maxd rem assigned) := by
  intro rem
  induction rem with
  | nil =>
    intro assigned hsub
    rw [clusterRun]
    exact List.Pairwise.nil
  | cons p rest ih =>
    obtain ⟨i, v⟩ := p
    intro assigned hsub
    rw [clusterRun]
    have hrest : ∀ q ∈ rest, q ∈ all := fun q hq => hsub q (List.mem_cons_of_mem _ hq)
    cases hAc : assigned.contains i <;> cases hCo : hasCoordsB v <;>
      simp only [hAc, hCo, Bool.or_false, Bool.or_true, Bool.false_or, Bool.true_or,
        Bool.not_true, Bool.not_false, if_true, if_false, ite_true, ite_false]
    case false.false => exact ih assigned hrest
    case false.true =>
      refine List.Pairwise.cons ?_ (ih (assigned ++ i :: gatherNear all assigned i v maxd) hrest)
      intro d hd j hjc hjd
      have := clusterRun_sound all maxd rest
        (assigned ++ i :: gatherNear all assigned i v maxd) hrest d hd j hjd
      exact this.1 (List.mem_append_right _ hjc)
    case true.false => exact ih assigned hrest
    case true.true => exact ih assigned hrest

/-- Every produced cluster has no duplicate indices (given that the table's
index column has none). -/
theorem clusterRun_nodup (all : List (ℕ × Venue)) (maxd : ℝ)
    (hall : (all.map Prod.fst).Nodup) :
    ∀ (rem : List (ℕ × Venue)) (assigned : List ℕ),
      ∀ c ∈ clusterRun all maxd rem assigned, c.Nodup := by
  intro rem
  induction rem with
  | nil =>
    intro assigned c hc
    rw [clusterRun] at hc
    exact absurd hc (List.not_mem_nil c)
  | cons p rest ih =>
    obtain ⟨i, v⟩ := p
    intro assigned c hc
    rw [clusterRun] at hc
    cases hAc : assigned.contains i <;> cases hCo : hasCoordsB v <;>
      simp only [hAc, hCo, Bool.or_false, Bool.or_true, Bool.false_or, Bool.true_or,
        Bool.not_true, Bool.not_false, if_true, if_false, ite_true, ite_false] at hc
    case false.false => exact ih assigned c hc
    case false.true =>
      rcases List.mem_cons.1 hc with rfl | hcrest
      · refine List.Nodup.cons ?_ ?_
        · intro hig
          exact (gatherNear_mem hig).2.1 rfl
        · have hsub : List.Sublist (gatherNear all assigned i v maxd) (all.map Prod.fst) := by
            unfold gatherNear
            exact (List.filter_sublist all).map Prod.fst
          exact hall.sublist hsub
      · exact ih (assigned ++ i :: gatherNear all assigned i v maxd) c hcrest
    case true.false => exact ih assigned c hc
    case true.true => exact ih assigned c hc

/-- Every coordinate-bearing row of the remaining scan is either already
assigned or lands in some produced cluster. -/
theorem clusterRun_cover (all : List (ℕ × Venue)) (maxd : ℝ) :
    ∀ (rem : List (ℕ × Venue)) (assigned : List ℕ) (i : ℕ) (v : Venue),
      (i, v) ∈ rem → hasCoordsB v = true →
      i ∈ assigned ∨ ∃ c ∈ clusterRun all maxd rem assigned, i ∈ c := by
  intro rem
  induction rem with
  | nil =>
    intro assigned i v hmem
    exact absurd hmem (List.not_mem_nil _)
  | cons p rest ih =>
    obtain ⟨j, w⟩ := p
    intro assigned i v hmem hcoord
    rw [clusterRun]
    cases hAc : assigned.contains j <;> cases hCo : hasCoordsB w <;>
      simp only [hAc, hCo, Bool.or_false, Bool.or_true, Bool.false_or, Bool.true_or,
        Bool.not_true, Bool.not_false, if_true, if_false, ite_true, ite_false]
    case false.false =>
      rcases List.mem_cons.1 hmem with heq | hrest
      · obtain ⟨rfl, rfl⟩ : i = j ∧ v = w := ⟨congrArg Prod.fst heq, congrArg Prod.snd heq⟩
        rw [hcoord] at hCo
        exact Bool.noConfusion hCo
      · exact ih assigned i v hrest hcoord
    case false.true =>
      rcases List.mem_cons.1 hmem with heq | hrest
      · obtain ⟨rfl, rfl⟩ : i = j ∧ v = w := ⟨congrArg Prod.fst heq, congrArg Prod.snd heq⟩
        exact Or.inr ⟨i :: gatherNear all assigned i v maxd,
          List.mem_cons_self _ _, List.mem_cons_self _ _⟩
      · rcases ih (assigned ++ j :: gatherNear all assigned j w maxd) i v hrest hcoord
          with hin | ⟨c, hc, hic⟩
        · rcases List.mem_append.1 hin with hin1 | hin2
          · exact Or.inl hin1
          · exact Or.inr ⟨j :: gatherNear all assigned j w maxd,
              List.mem_cons_self _ _, hin2⟩
        · exact Or.inr ⟨c, List.mem_cons_of_mem _ hc, hic⟩
    case true.false =>
      rcases List.mem_cons.1 hmem with heq | hrest
      · obtain ⟨rfl, rfl⟩ : i = j ∧ v = w := ⟨congrArg Prod.fst heq, congrArg Prod.snd heq⟩
        have h2 : assigned.elem i = true := by simpa [List.contains] using hAc
        exact Or.inl (List.elem_iff.1 h2)
      · exact ih assigned i v hrest hcoord
    case true.true =>
      rcases List.mem_cons.1 hmem with heq | hrest
      · obtain ⟨rfl, rfl⟩ : i = j ∧ v = w := ⟨congrArg Prod.fst heq, congrArg Prod.snd heq⟩
        have h2 : assigned.elem i = true := by simpa [List.contains] using hAc
        exact Or.inl (List.elem_iff.1 h2)
      · exact ih assigned i v hrest hcoord

/-- C9: the clusters produced by `cluster_venues_by_proximity` are pairwise
disjoint, duplicate-free, and their union is exactly the set of row indices
whose rows carry both a latitude and a longitude — every such row appears
in exactly one cluster and rows with a missing coordinate appear in none. -/
theorem C9_cluster_partition :
    ∀ (venues : List Venue) (maxd : ℝ),
      List.Pairwise (fun c d => ∀ j ∈ c, j ∉ d)
        (cluster_venues_by_proximity venues maxd) ∧
      (∀ c ∈ cluster_venues_by_proximity venues maxd, c.Nodup) ∧
      (∀ i : ℕ, (∃ c ∈ cluster_venues_by_proximity venues maxd, i ∈ c) ↔
        ∃ v, (i, v) ∈ venues.enum ∧ hasCoordsB v = true) := by
  intro venues maxd
  unfold cluster_venues_by_proximity
  refine ⟨clusterRun_disjoint _ _ _ _ (fun p hp => hp),
          clusterRun_nodup _ _ (List.nodup_enum_map_fst _) _ _,
          ?_⟩
  intro i
  constructor
  · rintro ⟨c, hc, hic⟩
    rcases clusterRun_sound venues.enum maxd venues.enum [] (fun p hp => hp) c hc i hic
      with ⟨_, w, hw, hcw⟩
    exact ⟨w, hw, hcw⟩
  · rintro ⟨v, hv, hcv⟩
    rcases clusterRun_cover venues.enum maxd venues.enum [] i v hv hcv with hin | hex
    · exact absurd hin (List.not_mem_nil _)
    · exact hex

/- ### C7 : haversine distance is a metric (up to symmetry/triangle) -/

/-- Half-angle square identity used to relate the haversine term to the
chordal inner product. -/
theorem sin_half_sq (x : ℝ) : Real.sin (x / 2) ^ 2 = (1 - Real.cos x) / 2 := by
  have h := Real.cos_two_mul (x / 2)
  have h2 := Real.sin_sq_add_cos_sq (x / 2)
  have h3 : 2 * (x / 2) = x := by ring
  rw [h3] at h
  nlinarith

/-- The spherical embedding is a unit vector. -/
theorem sphVec_inner (p1 l1 p2 l2 : ℝ) :
    ⟪sphVec p1 l1, sphVec p2 l2⟫ =
      Real.cos p1 * Real.cos p2 * Real.cos (l2 - l1) + Real.sin p1 * Real.sin p2 := by
  unfold sphVec
  rw [PiLp.inner_apply]
  simp only [RCLike.inner_apply, conj_trivial, Fin.sum_univ_three,
    Matrix.cons_val_zero, Matrix.cons_val_one, Matrix.head_cons,
    Matrix.cons_val_two, Matrix.tail_cons]
  rw [Real.cos_sub]
  ring

/-- The spherical embedding has norm 1. -/
theorem sphVec_norm (p l : ℝ) : ‖sphVec p l‖ = 1 := by
  have h : ⟪sphVec p l, sphVec p l⟫ = 1 := by
    rw [sphVec_inner, sub_self, Real.cos_zero]
    have := Real.sin_sq_add_cos_sq p
    nlinarith
  have h2 : ‖sphVec p l‖ ^ 2 = 1 := by
    rw [← real_inner_self_eq_norm_sq]
    exact h
  have hnn := norm_nonneg (sphVec p l)
  have h3 : (‖sphVec p l‖ - 1) * (‖sphVec p l‖ + 1) = 0 := by nlinarith
  rcases mul_eq_zero.1 h3 with h4 | h4
  · linarith
  · linarith

/-- For c in [-1, 1], the haversine angle `2 asin (sqrt ((1-c)/2))` is the
central angle `arccos c`. -/
theorem two_arcsin_sqrt_eq_arccos {c : ℝ} (h1 : -1 ≤ c) (h2 : c ≤ 1) :
    2 * Real.arcsin (Real.sqrt ((1 - c) / 2)) = Real.arccos c := by
  set s := Real.sqrt ((1 - c) / 2) with hs
  have hcnn : 0 ≤ (1 - c) / 2 := by linarith
  have hs0 : 0 ≤ s := Real.sqrt_nonneg _
  have hs1 : s ≤ 1 := by
    rw [hs]
    calc Real.sqrt ((1 - c) / 2) ≤ Real.sqrt 1 := Real.sqrt_le_sqrt (by linarith)
      _ = 1 := Real.sqrt_one
  have hsq : s ^ 2 = (1 - c) / 2 := Real.sq_sqrt hcnn
  have ht0 : 0 ≤ Real.arcsin s := Real.arcsin_nonneg.2 hs0
  have ht2 : Real.arcsin s ≤ Real.pi / 2 := Real.arcsin_le_pi_div_two s
  have hsin : Real.sin (Real.arcsin s) = s := Real.sin_arcsin (by linarith) hs1
  have hcos : Real.cos (2 * Real.arcsin s) = c := by
    have hc2 := Real.cos_two_mul (Real.arcsin s)
    have hpyth := Real.sin_sq_add_cos_sq (Real.arcsin s)
    nlinarith
  calc 2 * Real.arcsin s
      = Real.arccos (Real.cos (2 * Real.arcsin s)) :=
        (Real.arccos_cos (by linarith) (by linarith)).symm
    _ = Real.arccos c := by rw [hcos]

/-- The computed haversine distance is `6371 * arccos` of the spherical
inner product. -/
theorem calculate_distance_eq_arccos (lat1 lon1 lat2 lon2 : ℝ) :
    calculate_distance lat1 lon1 lat2 lon2 =
      6371 * Real.arccos ⟪sphVec (lat1 * Real.pi / 180) (lon1 * Real.pi / 180),
        sphVec (lat2 * Real.pi / 180) (lon2 * Real.pi / 180)⟫ := by
  unfold calculate_distance
  dsimp only
  have hcs := abs_real_inner_le_norm (sphVec (lat1 * Real.pi / 180) (lon1 * Real.pi / 180))
    (sphVec (lat2 * Real.pi / 180) (lon2 * Real.pi / 180))
  rw [sphVec_norm, sphVec_norm, mul_one] at hcs
  have hb := abs_le.1 hcs
  have ha : Real.sin ((lat2 * Real.pi / 180 - lat1 * Real.pi / 180) / 2) ^ 2 +
      Real.cos (lat1 * Real.pi / 180) * Real.cos (lat2 * Real.pi / 180) *
        Real.sin ((lon2 * Real.pi / 180 - lon1 * Real.pi / 180) / 2) ^ 2 =
      (1 - ⟪sphVec (lat1 * Real.pi / 180) (lon1 * Real.pi / 180),
        sphVec (lat2 * Real.pi / 180) (lon2 * Real.pi / 180)⟫) / 2 := by
    rw [sphVec_inner, sin_half_sq, sin_half_sq,
      Real.cos_sub (lat2 * Real.pi / 180) (lat1 * Real.pi / 180)]
    ring
  rw [ha, two_arcsin_sqrt_eq_arccos hb.1 hb.2]

/-- Triangle inequality for the arccos angle between unit vectors of a real
inner product space, via Cauchy–Schwarz on the components orthogonal to the
middle vector. -/
theorem arccos_inner_triangle {E : Type} [NormedAddCommGroup E] [InnerProductSpace ℝ E]
    (u v w : E) (hu : ‖u‖ = 1) (hv : ‖v‖ = 1) (hw : ‖w‖ = 1) :
    Real.arccos ⟪u, w⟫ ≤ Real.arccos ⟪u, v⟫ + Real.arccos ⟪v, w⟫ := by
  set c1 := ⟪u, v⟫ with hc1
  set c2 := ⟪v, w⟫ with hc2
  set c3 := ⟪u, w⟫ with hc3
  have hb1 : |c1| ≤ 1 := by
    have h := abs_real_inner_le_norm u v
    rwa [hu, hv, mul_one] at h
  have hb2 : |c2| ≤ 1 := by
    have h := abs_real_inner_le_norm v w
    rwa [hv, hw, mul_one] at h
  by_cases hAB : Real.arccos c1 + Real.arccos c2 ≤ Real.pi
  · have hvv : ⟪v, v⟫ = 1 := by
      rw [real_inner_self_eq_norm_sq, hv]
      norm_num
    have hnormu : ‖u - c1 • v‖ ^ 2 = 1 - c1 ^ 2 := by
      rw [norm_sub_sq_real, real_inner_smul_right, norm_smul, hu, hv, Real.norm_eq_abs,
        mul_one, sq_abs, ← hc1]
      ring
    have hnormw : ‖w - c2 • v‖ ^ 2 = 1 - c2 ^ 2 := by
      rw [norm_sub_sq_real, real_inner_smul_right, norm_smul, hw, hv, Real.norm_eq_abs,
        mul_one, sq_abs]
      have hwv : ⟪w, v⟫ = c2 := by rw [real_inner_comm, ← hc2]
      rw [hwv]
      ring
    have hinuw : ⟪u - c1 • v, w - c2 • v⟫ = c3 - c1 * c2 := by
      rw [inner_sub_left, inner_sub_right, inner_sub_right, real_inner_smul_right,
        real_inner_smul_right, real_inner_smul_left, real_inner_smul_left, hvv]
      have hvw : ⟪v, w⟫ = c2 := hc2.symm
      have huv : ⟪u, v⟫ = c1 := hc1.symm
      have huw : ⟪u, w⟫ = c3 := hc3.symm
      rw [hvw, huv, huw]
      ring
    have hnu : ‖u - c1 • v‖ = Real.sqrt (1 - c1 ^ 2) := by
      rw [← hnormu, Real.sqrt_sq (norm_nonneg _)]
    have hnw : ‖w - c2 • v‖ = Real.sqrt (1 - c2 ^ 2) := by
      rw [← hnormw, Real.sqrt_sq (norm_nonneg _)]
    have hkey : c1 * c2 - Real.sqrt (1 - c1 ^ 2) * Real.sqrt (1 - c2 ^ 2) ≤ c3 := by
      have hcs2 := abs_real_inner_le_norm (u - c1 • v) (w - c2 • v)
      rw [hinuw, hnu, hnw] at hcs2
      have h := (abs_le.1 hcs2).1
      linarith
    have hcosAB : Real.cos (Real.arccos c1 + Real.arccos c2) =
        c1 * c2 - Real.sqrt (1 - c1 ^ 2) * Real.sqrt (1 - c2 ^ 2) := by
      rw [Real.cos_add, Real.cos_arccos (abs_le.1 hb1).1 (abs_le.1 hb1).2,
        Real.cos_arccos (abs_le.1 hb2).1 (abs_le.1 hb2).2,
        Real.sin_arccos, Real.sin_arccos]
    have hc3ge : Real.cos (Real.arccos c1 + Real.arccos c2) ≤ c3 := by
      rw [hcosAB]
      exact hkey
    have hA0 : 0 ≤ Real.arccos c1 := Real.arccos_nonneg _
    have hB0 : 0 ≤ Real.arccos c2 := Real.arccos_nonneg _
    calc Real.arccos c3
        ≤ Real.arccos (Real.cos (Real.arccos c1 + Real.arccos c2)) := by
          rw [Real.arccos_eq_pi_div_two_sub_arcsin, Real.arccos_eq_pi_div_two_sub_arcsin]
          have hmono := Real.monotone_arcsin hc3ge
          linarith
      _ = Real.arccos c1 + Real.arccos c2 := Real.arccos_cos (by linarith) hAB
  · exact le_trans (Real.arccos_le_pi c3) (le_of_lt (not_le.1 hAB))

/-- C7: the haversine distance of `calculate_distance` vanishes on equal
points, is symmetric, and satisfies the triangle inequality — exactly over
ℝ, hence in particular within any floating-point tolerance. -/
theorem C7_haversine_metric :
    ∀ (lat1 lon1 lat2 lon2 lat3 lon3 : ℝ),
      calculate_distance lat1 lon1 lat1 lon1 = 0 ∧
      calculate_distance lat1 lon1 lat2 lon2 = calculate_distance lat2 lon2 lat1 lon1 ∧
      calculate_distance lat1 lon1 lat3 lon3 ≤
        calculate_distance lat1 lon1 lat2 lon2 +
          calculate_distance lat2 lon2 lat3 lon3 := by
  intro lat1 lon1 lat2 lon2 lat3 lon3
  refine ⟨?_, ?_, ?_⟩
  · unfold calculate_distance
    dsimp only
    simp [sub_self]
  · unfold calculate_distance
    dsimp only
    have hsin : ∀ a b : ℝ, Real.sin ((a - b) / 2) ^ 2 = Real.sin ((b - a) / 2) ^ 2 := by
      intro a b
      have h : (a - b) / 2 = -((b - a) / 2) := by ring
      rw [h, Real.sin_neg]
      ring
    rw [hsin (lat2 * Real.pi / 180) (lat1 * Real.pi / 180),
      hsin (lon2 * Real.pi / 180) (lon1 * Real.pi / 180),
      mul_comm (Real.cos (lat1 * Real.pi / 180)) (Real.cos (lat2 * Real.pi / 180))]
  · rw [calculate_distance_eq_arccos lat1 lon1 lat3 lon3,
      calculate_distance_eq_arccos lat1 lon1 lat2 lon2,
      calculate_distance_eq_arccos lat2 lon2 lat3 lon3]
    have h := arccos_inner_triangle
      (sphVec (lat1 * Real.pi / 180) (lon1 * Real.pi / 180))
      (sphVec (lat2 * Real.pi / 180) (lon2 * Real.pi / 180))
      (sphVec (lat3 * Real.pi / 180) (lon3 * Real.pi / 180))
      (sphVec_norm _ _) (sphVec_norm _ _) (sphVec_norm _ _)
    linarith

/-- Witness for C9_cluster_partition: a one-row coordinate-bearing table
produces the single cluster [0], and index 0 is certified as a
coordinate-bearing row by the partition theorem. -/
theorem C9_witness :
    cluster_venues_by_proximity [testVenueA] 1 = [[0]] ∧
    (∃ v, ((0 : ℕ), v) ∈ [testVenueA].enum ∧ hasCoordsB v = true) := by
  have he : cluster_venues_by_proximity [testVenueA] 1 = [[0]] := rfl
  refine ⟨he, ((C9_cluster_partition [testVenueA] 1).2.2 0).1
    ⟨[0], by rw [he]; exact List.mem_cons_self _ _, List.mem_cons_self _ _⟩⟩
